import Mathlib

/-!
Verification of the resilient chat-completion client
(`GithubModelsLLM` in `ai2holodeck/generation/github_llm.py`).

The embedding models the Python values the client manipulates: parsed
JSON bodies are Python objects (dict / list / str / int / bool / None),
and the helper functions below reproduce Python semantics for the exact
operations the source performs (`or` chains, truthiness, `dict.get`,
`in`, subscripts, slicing, `str()`, `rstrip`).  Operations that raise a
Python exception on some value shapes (e.g. `.get` on a non-dict) return
`Option`, with `none` standing for the raised exception.
-/

/-- Parsed JSON body as a Python value.  Numbers are modelled as `Int`
(no claim depends on float arithmetic); duplicate object keys are not
produced by Python's JSON parser, so association lists are read
first-match. -/
inductive Json where
  | jnull : Json
  | jbool : Bool → Json
  | jnum : Int → Json
  | jstr : String → Json
  | jarr : List Json → Json
  | jobj : List (String × Json) → Json

/-- Python truthiness of a value (`bool(v)`). -/
def pyTruthy : Json → Bool
  | .jnull => false
  | .jbool b => b
  | .jnum n => n != 0
  | .jstr s => !s.isEmpty
  | .jarr xs => !xs.isEmpty
  | .jobj kvs => !kvs.isEmpty

/-- Python `a or b` on optional strings, where `none` is Python `None`
and the empty string is falsy: returns `a` when truthy, else `b`. -/
def pyOrOpt (a b : Option String) : Option String :=
  match a with
  | some s => if s.isEmpty then b else some s
  | none => b

/-- Python `a or d` where the right operand is a string literal, as at the
end of the `base_url` and `model` resolution chains. -/
def pyOrDefault (a : Option String) (d : String) : String :=
  match a with
  | some s => if s.isEmpty then d else s
  | none => d

/-- Truthiness of an optional string, as in the line-37 key check:
Python None and the empty string are falsy. -/
def pyTruthyOpt : Option String → Bool
  | none => false
  | some s => !s.isEmpty

/-- Python rstrip of slashes (line 10): remove all trailing slash
characters. -/
def rstripSlash (s : String) : String :=
  ⟨(s.data.reverse.dropWhile (fun c => c == '/')).reverse⟩

/-- Python slice `s[:n]` on a string: the first `n` characters. -/
def strTake (n : Nat) (s : String) : String :=
  ⟨s.data.take n⟩

/-- Is `needle` a prefix of `hay`? (character lists) -/
def seqStartsWith : List Char → List Char → Bool
  | [], _ => true
  | _ :: _, [] => false
  | a :: as, b :: bs => a == b && seqStartsWith as bs

/-- Does `hay` contain `needle` as a contiguous run? (character lists) -/
def seqContains (needle : List Char) : List Char → Bool
  | [] => needle.isEmpty
  | c :: rest => seqStartsWith needle (c :: rest) || seqContains needle rest

/-- Python `needle in hay` for strings: contiguous substring test. -/
def containsSub (hay needle : String) : Bool :=
  seqContains needle.data hay.data

mutual
/-- Python `str(v)` on a parsed JSON value (`str(data)` at line 65).
String escape sequences inside reprs are not modelled; no claim inspects
repr contents. -/
def pyStr : Json → String
  | .jnull => "None"
  | .jbool true => "True"
  | .jbool false => "False"
  | .jnum n => toString n
  | .jstr s => s
  | .jarr xs => "[" ++ pyReprList xs ++ "]"
  | .jobj kvs => "\x7b" ++ pyReprObj kvs ++ "\x7d"

/-- Python `repr(v)`, used for elements inside container reprs. -/
def pyRepr : Json → String
  | .jnull => "None"
  | .jbool true => "True"
  | .jbool false => "False"
  | .jnum n => toString n
  | .jstr s => "\x27" ++ s ++ "\x27"
  | .jarr xs => "[" ++ pyReprList xs ++ "]"
  | .jobj kvs => "\x7b" ++ pyReprObj kvs ++ "\x7d"

/-- Comma-separated reprs of list elements. -/
def pyReprList : List Json → String
  | [] => ""
  | [x] => pyRepr x
  | x :: rest => pyRepr x ++ ", " ++ pyReprList rest

/-- Comma-separated `key: value` reprs of dict entries. -/
def pyReprObj : List (String × Json) → String
  | [] => ""
  | [(k, v)] => "\x27" ++ k ++ "\x27: " ++ pyRepr v
  | (k, v) :: rest => "\x27" ++ k ++ "\x27: " ++ pyRepr v ++ ", " ++ pyReprObj rest
end

/-- Python membership test `key in v` for a string key (line 62).
On a dict it is a key test, on a list a membership test (a string key
equals only string elements), on a string a substring test; on the other
value shapes Python raises `TypeError`, modelled as `none`. -/
def pyContains (key : String) : Json → Option Bool
  | .jobj kvs => some (kvs.any fun kv => kv.1 == key)
  | .jarr xs => some (xs.any fun x => match x with
      | .jstr s => s == key
      | _ => false)
  | .jstr s => some (containsSub s key)
  | _ => none

/-- Python `v.get(key, default)` (lines 63–65): defined on dicts only;
on any other value `.get` raises `AttributeError`, modelled as `none`. -/
def pyDictGet (v : Json) (key : String) (default : Json) : Option Json :=
  match v with
  | .jobj kvs => some (((kvs.find? fun kv => kv.1 == key).map Prod.snd).getD default)
  | _ => none

/-- Python `v[key]` with a string key (line 71): a dict lookup; missing
key raises `KeyError` and non-dict values raise, both modelled `none`. -/
def pyIndexStr (v : Json) (key : String) : Option Json :=
  match v with
  | .jobj kvs => (kvs.find? fun kv => kv.1 == key).map Prod.snd
  | _ => none

/-- Python `v[i]` with a non-negative integer index (line 71): list and
string indexing; out of range or unindexable raises, modelled `none`. -/
def pyIndexNat (v : Json) (i : Nat) : Option Json :=
  match v with
  | .jarr xs => xs.get? i
  | .jstr s => (s.data.get? i).map fun c => .jstr ⟨[c]⟩
  | _ => none

/-- Python slice `v[:300]` (line 69): defined on strings and lists;
on other values slicing raises `TypeError`, modelled as `none`. -/
def pySlice300 : Json → Option Json
  | .jstr s => some (.jstr (strTake 300 s))
  | .jarr xs => some (.jarr (xs.take 300))
  | _ => none

/-- Line 71: the nested lookup of choices, index 0, message, content. -/
def contentPath (data : Json) : Option Json := do
  let a ← pyIndexStr data "choices"
  let b ← pyIndexNat a 0
  let c ← pyIndexStr b "message"
  pyIndexStr c "content"

/-! The client: constructor (`GithubModelsLLM.__init__`, lines 4–23) -/

/-- The process environment: `os.getenv` returns `none` when the
variable is unset and `some v` (possibly empty) when set. -/
def Env : Type := String → Option String

/-- Python getenv with a default (line 15): the default applies only
when the variable is unset, not when it is set to the empty string. -/
def getenvD (env : Env) (key d : String) : String :=
  (env key).getD d

/-- Hardcoded default of the `base_url` chain (line 10). -/
def defaultBaseUrl : String := "https://models.github.ai/inference"

/-- Hardcoded default of the `model` resolution (line 15). -/
def defaultModel : String := "openai/gpt-4o-mini"

/-- Signature defaults of `__init__` (line 5): `max_tokens=2048`,
`temperature=0.2`, `timeout=120`. -/
def defaultMaxTokens : Nat := 2048

/-- Default temperature 0.2, modelled as the rational 1/5. -/
def defaultTemperature : Rat := 1 / 5

/-- Default timeout of 120 seconds. -/
def defaultTimeout : Nat := 120

/-- The state a constructed `GithubModelsLLM` instance holds.  `api_key`
is the Python value of the `or` chain: `none` for Python None, and
`some s` otherwise, so a set-but-empty credential is `some` of the
empty string. -/
structure Client where
  api_key : Option String
  base_url : String
  endpoint_primary : String
  endpoint_fallback : String
  model : String
  max_tokens : Nat
  temperature : Rat
  timeout : Nat
  trust_env : Bool

/-- Proxy-trust resolution (lines 21–23): an explicit boolean wins;
otherwise the variable HOLODECK_TRUST_ENV (defaulted to the literal 0)
lower-cased must be one of the literals 1, true, yes. -/
def resolveTrustEnv (trust_env : Option Bool) (env : Env) : Bool :=
  match trust_env with
  | some b => b
  | none =>
      let v := (getenvD env "HOLODECK_TRUST_ENV" "0").toLower
      v == "1" || v == "true" || v == "yes"

/-- The constructor `GithubModelsLLM.__init__` (lines 4–23).  Total:
construction never raises, whatever the credential state. -/
def mkClient (api_key base_url model : Option String)
    (max_tokens : Nat) (temperature : Rat) (timeout : Nat)
    (trust_env : Option Bool) (env : Env) : Client :=
  let key := pyOrOpt (pyOrOpt (pyOrOpt api_key (env "GITHUB_TOKEN"))
      (env "GH_TOKEN")) (env "OPENAI_API_KEY")
  let base := rstripSlash (pyOrDefault (pyOrOpt (pyOrOpt base_url
      (env "OPENAI_API_BASE")) (env "OPENAI_BASE_URL")) defaultBaseUrl)
  { api_key := key
    base_url := base
    endpoint_primary := base ++ "/v1/chat/completions"
    endpoint_fallback := base ++ "/chat/completions"
    model := pyOrDefault model (getenvD env "HOLODECK_MODEL" defaultModel)
    max_tokens := max_tokens
    temperature := temperature
    timeout := timeout
    trust_env := resolveTrustEnv trust_env env }

/-! The call operation (`GithubModelsLLM.__call__`, lines 36–73) -/

/-- One HTTP response as the client observes it: status code, raw text,
and the result of `r.json()` (`none` when the body fails to parse). -/
structure HttpResponse where
  status_code : Nat
  text : String
  jsonBody : Option Json

/-- The wire payload built once per call (lines 40–45). -/
structure Payload where
  model : String
  messages : List (String × String)
  max_tokens : Nat
  temperature : Rat
  deriving DecidableEq

/-- The payload dict of lines 40–45: the model, a single user-role
message carrying the prompt, max_tokens and temperature. -/
def mkPayload (c : Client) (prompt : String) : Payload :=
  ⟨c.model, [("user", prompt)], c.max_tokens, c.temperature⟩

/-- The typed rendering of each `raise RuntimeError` site of `__call__`,
carrying exactly the data its f-string interpolates.
`noApiKey` is line 38 (the spec's `ConfigError`), `unauthorized` line 54
(`Unauthorized`), `nonJson` line 60 (`TransportError`), `apiError`
line 69 (`ModelError`), `exhausted` line 73 (`EndpointUnavailable`). -/
inductive LLMError where
  | noApiKey : LLMError
  | unauthorized : String → String → LLMError
  | nonJson : Nat → String → String → LLMError
  | apiError : Nat → Json → String → LLMError
  | exhausted : LLMError

/-- What one loop iteration does with its response. -/
inductive StepResult where
  | ret : Json → StepResult
  | raiseErr : LLMError → StepResult
  | continueNext : StepResult
  | pyExn : StepResult

/-- Lines 63–65: err is the error member of the body (defaulting to an
empty dict), code and msg are the code and message members of err, and
a falsy message falls back to the str of the whole body.  The result
`none` models the `AttributeError` Python raises when the body or its
error member is not a dict. -/
def errInfo (data : Json) : Option (Json × Json) := do
  let err ← pyDictGet data "error" (.jobj [])
  let code ← pyDictGet err "code" .jnull
  let msgv ← pyDictGet err "message" .jnull
  pure (code, if pyTruthy msgv then msgv else .jstr (pyStr data))

/-- Lines 62–69, entered when the status is ≥ 300 or the body has an
error member: compute err, code and msg, retry once when this is
the primary URL and the status is 404 or 422, otherwise raise the API
error with `msg[:300]` (whose slice itself raises on unsliceable
values). -/
def errorBranch (urlEqPrimary : Bool) (status : Nat) (data : Json) :
    StepResult :=
  match errInfo data with
  | none => .pyExn
  | some (code, msg) =>
      if urlEqPrimary && (status == 404 || status == 422) then
        .continueNext
      else
        match pySlice300 msg with
        | some sliced => .raiseErr (.apiError status code (pyStr sliced))
        | none => .pyExn

/-- One iteration of the endpoint loop (lines 49–71): parse the body,
handle the non-JSON statuses, then classify the JSON body.
`urlEqPrimary` is the line-67 comparison `url == self.endpoint_primary`. -/
def classify (urlEqPrimary : Bool) (url : String) (r : HttpResponse) :
    StepResult :=
  match r.jsonBody with
  | none =>
      if r.status_code == 401 || r.status_code == 403 then
        .raiseErr (.unauthorized url (strTake 300 r.text))
      else if r.status_code == 404 || r.status_code == 405 then
        .continueNext
      else
        .raiseErr (.nonJson r.status_code url (strTake 500 r.text))
  | some data =>
      if 300 ≤ r.status_code then
        errorBranch urlEqPrimary r.status_code data
      else
        match pyContains "error" data with
        | none => .pyExn
        | some true => errorBranch urlEqPrimary r.status_code data
        | some false =>
            match contentPath data with
            | some v => .ret v
            | none => .pyExn

/-- The observable result of one `__call__` invocation: the returned
content, a raised `RuntimeError`, or an uncaught Python exception. -/
inductive CallOutcome where
  | success : Json → CallOutcome
  | failure : LLMError → CallOutcome
  | pyExn : CallOutcome

/-- Outcome plus the `(url, payload)` POSTs made, in order. -/
structure CallTrace where
  outcome : CallOutcome
  posts : List (String × Payload)

/-- The call operation `GithubModelsLLM.__call__` (lines 36–73).
Here `rP` is the response the
transport gives the first POST (always to the primary endpoint) and
`rF` the response to the second POST (always to the fallback), when
made. -/
def callLLM (c : Client) (prompt : String) (rP rF : HttpResponse) :
    CallTrace :=
  if pyTruthyOpt c.api_key = false then
    ⟨.failure .noApiKey, []⟩
  else
    let payload := mkPayload c prompt
    match classify (c.endpoint_primary == c.endpoint_primary)
        c.endpoint_primary rP with
    | .ret v => ⟨.success v, [(c.endpoint_primary, payload)]⟩
    | .raiseErr e => ⟨.failure e, [(c.endpoint_primary, payload)]⟩
    | .pyExn => ⟨.pyExn, [(c.endpoint_primary, payload)]⟩
    | .continueNext =>
        let posts := [(c.endpoint_primary, payload),
          (c.endpoint_fallback, payload)]
        match classify (c.endpoint_fallback == c.endpoint_primary)
            c.endpoint_fallback rF with
        | .ret v => ⟨.success v, posts⟩
        | .raiseErr e => ⟨.failure e, posts⟩
        | .pyExn => ⟨.pyExn, posts⟩
        | .continueNext => ⟨.failure .exhausted, posts⟩

/-- The message each `RuntimeError` carries, translated from the
f-strings at lines 38, 55, 60, 69 and 73. -/
def LLMError.message : LLMError → String
  | .noApiKey => "No API key. Set GITHUB_TOKEN or OPENAI_API_KEY."
  | .unauthorized url ex =>
      "Unauthorized at " ++ url ++
      ". Check token (models:read) and daily limits. Body: " ++ ex
  | .nonJson status url ex =>
      "Non-JSON response " ++ toString status ++ " from " ++ url ++
      ": " ++ ex
  | .apiError status code ex =>
      "GitHub Models API error " ++ toString status ++ " (" ++
      pyStr code ++ "): " ++ ex
  | .exhausted =>
      "Failed to reach a working chat/completions endpoint on GitHub Models."


/-! Spec-side resolution (§4.1), for the refinement claim C6

These definitions follow the specification wording — explicit argument
(if provided and non-empty), else the first non-empty value among a
declared priority list of environment variables, else the hardcoded
default — and are compared against `mkClient`. -/

/-- Spec: the first set-and-non-empty value in the priority list, else
the hardcoded default. -/
def specEnvPick : List (Option String) → String → String
  | [], d => d
  | none :: rest, d => specEnvPick rest d
  | some s :: rest, d => if s.isEmpty then specEnvPick rest d else s

/-- Spec: per-field resolution order for a field with a hardcoded
default. -/
def specResolveField (explicitArg : Option String)
    (envList : List (Option String)) (d : String) : String :=
  match explicitArg with
  | some s => if s.isEmpty then specEnvPick envList d else s
  | none => specEnvPick envList d

/-- Spec: resolution for the credential, which has no hardcoded default:
the first non-empty candidate, else unset. -/
def specPickOpt : List (Option String) → Option String
  | [] => none
  | none :: rest => specPickOpt rest
  | some s :: rest => if s.isEmpty then specPickOpt rest else some s

/-- Truthiness-normalisation of a Python optional string: a
set-but-empty credential and Python None are both unset. -/
def normFalsy : Option String → Option String
  | some s => if s.isEmpty then none else some s
  | none => none

/-! Fixture definitions used by the claim theorems -/

/-- Concrete environment used by the C6 counterexample: `HOLODECK_MODEL`
set to the empty string, every other variable unset. -/
def envModelEmpty : Env := fun k =>
  if k == "HOLODECK_MODEL" then some "" else none

/-- A concrete client used by closed counterexamples and witnesses:
explicit credential, base `http://x`, model `m`. -/
def exampleClient : Client :=
  mkClient (some "k") (some "http://x") (some "m") 16 1 5 (some false)
    (fun _ => none)

/-- A structured 422-style error body: a dict whose error member is a
dict carrying code unknown_model and message nope. -/
def errBody422 : Json :=
  .jobj [("error", .jobj [("code", .jstr "unknown_model"),
    ("message", .jstr "nope")])]

/-- Is this outcome the line-73 both-endpoints-exhausted error? -/
def isExhaustedFailure : CallOutcome → Bool
  | .failure .exhausted => true
  | _ => false

/-- Is this outcome the line-54 unauthorized error? -/
def isUnauthorizedFailure : CallOutcome → Bool
  | .failure (.unauthorized _ _) => true
  | _ => false

/-- Structural facts carried by each fatal (`RuntimeError`) outcome of a
run: which URL and which response's status and raw-body excerpt each
variant holds. -/
def errDataOk (c : Client) (rP rF : HttpResponse) : LLMError → Prop
  | .noApiKey => True
  | .unauthorized url ex =>
      (url = c.endpoint_primary ∧ ex = strTake 300 rP.text
        ∧ (rP.status_code = 401 ∨ rP.status_code = 403))
      ∨ (url = c.endpoint_fallback ∧ ex = strTake 300 rF.text
        ∧ (rF.status_code = 401 ∨ rF.status_code = 403))
  | .nonJson status url ex =>
      (url = c.endpoint_primary ∧ status = rP.status_code
        ∧ ex = strTake 500 rP.text)
      ∨ (url = c.endpoint_fallback ∧ status = rF.status_code
        ∧ ex = strTake 500 rF.text)
  | .apiError status _ _ =>
      status = rP.status_code ∨ status = rF.status_code
  | .exhausted => True

/-- The raw-body excerpts of the unauthorized and non-JSON errors are
bounded by the source's slice widths (300 and 500 characters). -/
def excerptLenOk : LLMError → Prop
  | .unauthorized _ ex => ex.length ≤ 300
  | .nonJson _ _ ex => ex.length ≤ 500
  | _ => True

/-! Helper lemmas -/

example : pyTruthy (.jobj []) = false := by decide
example : rstripSlash "http://x///" = "http://x" := by decide
example : containsSub "has error inside" "error" = true := by decide
example : pyStr (.jobj [("a", .jnum 1)]) = "\x7b\x27a\x27: 1\x7d" := rfl
example : contentPath (.jobj [("choices", .jarr [.jobj [("message",
  .jobj [("content", .jstr "hi")])]])]) = some (.jstr "hi") := rfl


theorem normFalsy_pyOrOpt (a b : Option String) :
    normFalsy (pyOrOpt a b) = (normFalsy a).or (normFalsy b) := by
  rcases a with _ | s
  · rfl
  · by_cases h : s.isEmpty <;> simp [pyOrOpt, normFalsy, h]

theorem specPickOpt_cons (a : Option String) (rest : List (Option String)) :
    specPickOpt (a :: rest) = (normFalsy a).or (specPickOpt rest) := by
  rcases a with _ | s
  · rfl
  · by_cases h : s.isEmpty <;> simp [specPickOpt, normFalsy, h]

theorem pyOrDefault_eq_getD (a : Option String) (d : String) :
    pyOrDefault a d = (normFalsy a).getD d := by
  rcases a with _ | s
  · rfl
  · by_cases h : s.isEmpty <;> simp [pyOrDefault, normFalsy, h]

theorem specEnvPick_eq_getD (l : List (Option String)) (d : String) :
    specEnvPick l d = (specPickOpt l).getD d := by
  induction l with
  | nil => rfl
  | cons a rest ih =>
      rcases a with _ | s
      · simpa [specEnvPick, specPickOpt] using ih
      · by_cases h : s.isEmpty <;> simp [specEnvPick, specPickOpt, h, ih]

theorem specResolveField_eq_getD (a : Option String)
    (l : List (Option String)) (d : String) :
    specResolveField a l d = ((normFalsy a).or (specPickOpt l)).getD d := by
  rcases a with _ | s
  · simp [specResolveField, normFalsy, specEnvPick_eq_getD]
  · by_cases h : s.isEmpty <;>
      simp [specResolveField, normFalsy, h, specEnvPick_eq_getD]

theorem strTake_length_le (n : Nat) (s : String) :
    (strTake n s).length ≤ n :=
  s.data.length_take_le n

theorem dropWhile_slash_replicate (k : Nat) (l : List Char) :
    (List.replicate k '/' ++ l).dropWhile (fun c => c == '/')
      = l.dropWhile (fun c => c == '/') := by
  induction k with
  | zero => rfl
  | succ n ih => simp [List.replicate_succ, List.dropWhile, ih]

theorem rstripSlash_append_slashes (s : String) (k : Nat) :
    rstripSlash (s ++ ⟨List.replicate k '/'⟩) = rstripSlash s := by
  unfold rstripSlash
  rw [String.data_append]
  simp [List.reverse_append, List.reverse_replicate, dropWhile_slash_replicate]

/-! Claim theorems -/

/-- Claim C6 is false as stated: with the model environment variable set
to the empty string and no explicit model argument, the code resolves
the model to the empty string — Python getenv applies its default only
when the variable is unset — while the spec resolution order (first
non-empty environment value, else the hardcoded default) yields the
default model identifier. -/
theorem c6_counterexample :
    (mkClient none none none defaultMaxTokens defaultTemperature
      defaultTimeout none envModelEmpty).model = ""
    ∧ specResolveField none [envModelEmpty "HOLODECK_MODEL"] defaultModel
        = defaultModel
    ∧ ("" : String) ≠ defaultModel :=
  ⟨rfl, rfl, by decide⟩

/-- Claim C6 (amended): resolution follows the spec's order — explicit
non-empty argument, then the first non-empty value in the field's
environment-variable priority list, then the hardcoded default — for the
credential (up to truthiness normalisation: `None` and a set-but-empty
string both count as unset) and for `base_url` unconditionally, and
for `model` provided its environment variable is not set to the empty
string; in that one remaining case the code yields the empty string
instead of the default. -/
theorem c6_resolution_order (api_key base_url model : Option String)
    (mt : Nat) (tp : Rat) (tmo : Nat) (te : Option Bool) (env : Env)
    (hm : env "HOLODECK_MODEL" ≠ some "") :
    normFalsy (mkClient api_key base_url model mt tp tmo te env).api_key
      = specPickOpt [api_key, env "GITHUB_TOKEN", env "GH_TOKEN",
          env "OPENAI_API_KEY"]
    ∧ (mkClient api_key base_url model mt tp tmo te env).base_url
      = rstripSlash (specResolveField base_url
          [env "OPENAI_API_BASE", env "OPENAI_BASE_URL"] defaultBaseUrl)
    ∧ (mkClient api_key base_url model mt tp tmo te env).model
      = specResolveField model [env "HOLODECK_MODEL"] defaultModel := by
  refine ⟨?_, ?_, ?_⟩
  · show normFalsy (pyOrOpt (pyOrOpt (pyOrOpt api_key (env "GITHUB_TOKEN"))
        (env "GH_TOKEN")) (env "OPENAI_API_KEY")) = _
    simp [normFalsy_pyOrOpt, specPickOpt_cons, specPickOpt, Option.or_assoc]
  · show rstripSlash (pyOrDefault (pyOrOpt (pyOrOpt base_url
        (env "OPENAI_API_BASE")) (env "OPENAI_BASE_URL")) defaultBaseUrl) = _
    rw [specResolveField_eq_getD, pyOrDefault_eq_getD]
    simp [normFalsy_pyOrOpt, specPickOpt_cons, specPickOpt, Option.or_assoc]
  · show pyOrDefault model (getenvD env "HOLODECK_MODEL" defaultModel) = _
    rw [specResolveField_eq_getD, pyOrDefault_eq_getD]
    rcases hjm : env "HOLODECK_MODEL" with _ | s
    · simp [getenvD, hjm, specPickOpt]
    · have hs : s ≠ "" := fun h' => hm (by rw [hjm, h'])
      have hE : s.isEmpty = false := by
        rcases hb : s.isEmpty
        · rfl
        · exact absurd ((String.isEmpty_iff s).1 hb) hs
      rcases normFalsy model with _ | v <;>
        simp [getenvD, hjm, specPickOpt, hE]

/-- Closed instance of `c6_resolution_order` at a concrete input: the
model environment variable set to a non-empty value beats the default
and loses to the explicit argument being absent. -/
theorem c6_resolution_order_witness :
    ((fun _ : String => some "env/model") "HOLODECK_MODEL" ≠ some "")
    ∧ (mkClient none none none defaultMaxTokens defaultTemperature
        defaultTimeout none (fun _ => some "env/model")).model
      = specResolveField none [some "env/model"] defaultModel := by
  refine ⟨by simp, ?_⟩
  exact (c6_resolution_order none none none defaultMaxTokens
    defaultTemperature defaultTimeout none (fun _ => some "env/model")
    (by simp)).2.2

/-- A non-empty string stays non-empty under appending. -/
theorem append_ne_empty_left (s t : String) (hs : s ≠ "") : s ++ t ≠ "" := by
  intro h
  have hd := congrArg String.data h
  rw [String.data_append] at hd
  exact hs (String.ext (List.append_eq_nil.mp hd).1)

/-- A string has `isEmpty` false exactly when it is non-empty. -/
theorem isEmpty_false_of_ne (s : String) (hs : s ≠ "") :
    s.isEmpty = false := by
  rcases hb : s.isEmpty
  · rfl
  · exact absurd ((String.isEmpty_iff s).1 hb) hs

/-- With a truthy explicit `base_url` argument the whole `or` chain is
skipped and the stored base is just the argument, trailing slashes
stripped (lines 8–10). -/
theorem mkClient_base_of_truthy (b : String) (hb : b.isEmpty = false)
    (api_key model : Option String) (mt : Nat) (tp : Rat) (tmo : Nat)
    (te : Option Bool) (env : Env) :
    (mkClient api_key (some b) model mt tp tmo te env).base_url
      = rstripSlash b := by
  show rstripSlash (pyOrDefault (pyOrOpt (pyOrOpt (some b)
      (env "OPENAI_API_BASE")) (env "OPENAI_BASE_URL")) defaultBaseUrl)
    = rstripSlash b
  simp [pyOrOpt, pyOrDefault, hb]

/-- Line 12: the primary endpoint is the stored base plus the versioned
path. -/
theorem mkClient_endpoint_primary (api_key base_url model : Option String)
    (mt : Nat) (tp : Rat) (tmo : Nat) (te : Option Bool) (env : Env) :
    (mkClient api_key base_url model mt tp tmo te env).endpoint_primary
      = (mkClient api_key base_url model mt tp tmo te env).base_url
        ++ "/v1/chat/completions" := rfl

/-- Line 13: the fallback endpoint is the stored base plus the REST
path. -/
theorem mkClient_endpoint_fallback (api_key base_url model : Option String)
    (mt : Nat) (tp : Rat) (tmo : Nat) (te : Option Bool) (env : Env) :
    (mkClient api_key base_url model mt tp tmo te env).endpoint_fallback
      = (mkClient api_key base_url model mt tp tmo te env).base_url
        ++ "/chat/completions" := rfl

/-- Claim C9 is false as stated, on the empty/slash-only edge: an
explicit base_url that is the empty string is falsy in Python, so the
hardcoded default takes over, while a lone slash — the same string plus
one trailing slash — is truthy and strips to the empty string.  The two
constructions differ only by a trailing slash on base_url yet produce
different endpoint URLs. -/
theorem c9_counterexample :
    ("/" : String) = "" ++ "/"
    ∧ (mkClient none (some "") none defaultMaxTokens defaultTemperature
        defaultTimeout none (fun _ => none)).endpoint_primary
      ≠ (mkClient none (some "/") none defaultMaxTokens defaultTemperature
        defaultTimeout none (fun _ => none)).endpoint_primary :=
  ⟨rfl, by decide⟩

/-- Claim C9 (amended): for a *non-empty* explicit `base_url`, appending
any number of trailing `/` characters changes neither the stored base
nor the derived primary and fallback endpoint URLs, because trailing
slashes are stripped at construction. -/
theorem c9_trailing_slash (s : String) (k : Nat) (hs : s ≠ "")
    (api_key model : Option String) (mt : Nat) (tp : Rat) (tmo : Nat)
    (te : Option Bool) (env : Env) :
    (mkClient api_key (some (s ++ ⟨List.replicate k '/'⟩)) model mt tp tmo
        te env).base_url
      = (mkClient api_key (some s) model mt tp tmo te env).base_url
    ∧ (mkClient api_key (some (s ++ ⟨List.replicate k '/'⟩)) model mt tp tmo
        te env).endpoint_primary
      = (mkClient api_key (some s) model mt tp tmo te env).endpoint_primary
    ∧ (mkClient api_key (some (s ++ ⟨List.replicate k '/'⟩)) model mt tp tmo
        te env).endpoint_fallback
      = (mkClient api_key (some s) model mt tp tmo te env).endpoint_fallback := by
  have hX : (s ++ (⟨List.replicate k '/'⟩ : String)).isEmpty = false :=
    isEmpty_false_of_ne _ (append_ne_empty_left s _ hs)
  have hb : (mkClient api_key (some (s ++ ⟨List.replicate k '/'⟩)) model
      mt tp tmo te env).base_url
      = (mkClient api_key (some s) model mt tp tmo te env).base_url := by
    rw [mkClient_base_of_truthy _ hX, mkClient_base_of_truthy _
      (isEmpty_false_of_ne s hs), rstripSlash_append_slashes]
  refine ⟨hb, ?_, ?_⟩
  · rw [mkClient_endpoint_primary, mkClient_endpoint_primary, hb]
  · rw [mkClient_endpoint_fallback, mkClient_endpoint_fallback, hb]

/-- Closed instance of `c9_trailing_slash`: the base with two trailing
slashes and the bare base yield the same endpoints. -/
theorem c9_trailing_slash_witness :
    ("http://x" : String) ≠ ""
    ∧ (mkClient none (some ("http://x" ++ ⟨List.replicate 2 '/'⟩)) none
        defaultMaxTokens defaultTemperature defaultTimeout none
        (fun _ => none)).endpoint_primary
      = (mkClient none (some "http://x") none defaultMaxTokens
        defaultTemperature defaultTimeout none (fun _ => none)).endpoint_primary :=
  ⟨by decide, (c9_trailing_slash "http://x" 2 (by decide) none none
    defaultMaxTokens defaultTemperature defaultTimeout none
    (fun _ => none)).2.1⟩

/-- Claim C3: construction is total — `mkClient` is a plain Lean
function, so a missing credential never makes it fail — and every call
made while the stored credential is falsy (`None` or empty) raises the
line-38 `RuntimeError` (the spec's ConfigError) with an empty POST
trace: the transport is never invoked. -/
theorem c3_missing_credential (api_key base_url model : Option String)
    (mt : Nat) (tp : Rat) (tmo : Nat) (te : Option Bool) (env : Env)
    (prompt : String) (rP rF : HttpResponse)
    (hkey : pyTruthyOpt
      (mkClient api_key base_url model mt tp tmo te env).api_key = false) :
    callLLM (mkClient api_key base_url model mt tp tmo te env) prompt rP rF
      = ⟨.failure .noApiKey, []⟩ := by
  simp [callLLM, hkey]

/-- Closed instance of `c3_missing_credential`: no credential anywhere. -/
theorem c3_missing_credential_witness :
    pyTruthyOpt (mkClient none none none defaultMaxTokens
      defaultTemperature defaultTimeout none (fun _ => none)).api_key = false
    ∧ callLLM (mkClient none none none defaultMaxTokens defaultTemperature
        defaultTimeout none (fun _ => none)) "hello"
        ⟨200, "", none⟩ ⟨200, "", none⟩
      = ⟨.failure .noApiKey, []⟩ :=
  ⟨rfl, c3_missing_credential none none none defaultMaxTokens
    defaultTemperature defaultTimeout none (fun _ => none) "hello"
    ⟨200, "", none⟩ ⟨200, "", none⟩ rfl⟩

/-- The two endpoints of a constructed client are never the same
string: their suffixes have different lengths. -/
theorem mkClient_endpoints_ne (api_key base_url model : Option String)
    (mt : Nat) (tp : Rat) (tmo : Nat) (te : Option Bool) (env : Env) :
    (mkClient api_key base_url model mt tp tmo te env).endpoint_fallback
      ≠ (mkClient api_key base_url model mt tp tmo te env).endpoint_primary := by
  rw [mkClient_endpoint_fallback, mkClient_endpoint_primary]
  intro h
  have hl := congrArg String.length h
  rw [String.length_append, String.length_append] at hl
  have h17 : ("/chat/completions" : String).length = 17 := rfl
  have h20 : ("/v1/chat/completions" : String).length = 20 := rfl
  rw [h17, h20] at hl
  omega

/-- Claim C1 is false as stated: when both endpoints answer 422 with a
structured error body, the fallback iteration fails the line-67
primary-URL test and raises the line-69 API error (the spec's
`ModelError`), not the line-73 exhausted error
(`EndpointUnavailable`). -/
theorem c1_counterexample :
    (callLLM exampleClient "p" ⟨422, "b", some errBody422⟩
        ⟨422, "b", some errBody422⟩).outcome
      = .failure (.apiError 422 (.jstr "unknown_model") "nope")
    ∧ isExhaustedFailure (callLLM exampleClient "p"
        ⟨422, "b", some errBody422⟩ ⟨422, "b", some errBody422⟩).outcome
      = false :=
  ⟨rfl, rfl⟩

/-- Claim C1 (amended): when both endpoints answer 422 with JSON bodies
on which lines 63–65 compute a code and message (in particular, with a
structured error field), the call retries the fallback once and then
terminates with the line-69 API error — the spec's `ModelError` —
carrying the fallback's code and sliced message, after exactly two
POSTs, not with the line-73 both-endpoints-exhausted error. -/
theorem c1_both_422_model_error (api_key base_url model : Option String)
    (mt : Nat) (tp : Rat) (tmo : Nat) (te : Option Bool) (env : Env)
    (prompt : String) (rP rF : HttpResponse) (dP dF : Json)
    (infoP : Json × Json) (codeF msgF slF : Json)
    (hkey : pyTruthyOpt
      (mkClient api_key base_url model mt tp tmo te env).api_key = true)
    (hstP : rP.status_code = 422) (hstF : rF.status_code = 422)
    (hjP : rP.jsonBody = some dP) (hjF : rF.jsonBody = some dF)
    (_herrP : pyContains "error" dP = some true)
    (_herrF : pyContains "error" dF = some true)
    (hiP : errInfo dP = some infoP)
    (hiF : errInfo dF = some (codeF, msgF))
    (hsl : pySlice300 msgF = some slF) :
    callLLM (mkClient api_key base_url model mt tp tmo te env) prompt rP rF
      = ⟨.failure (.apiError 422 codeF (pyStr slF)),
         [((mkClient api_key base_url model mt tp tmo te env).endpoint_primary,
           mkPayload (mkClient api_key base_url model mt tp tmo te env) prompt),
          ((mkClient api_key base_url model mt tp tmo te env).endpoint_fallback,
           mkPayload (mkClient api_key base_url model mt tp tmo te env) prompt)]⟩ := by
  rcases infoP with ⟨codeP, msgP⟩
  have hne : ((mkClient api_key base_url model mt tp tmo te env).endpoint_fallback
      == (mkClient api_key base_url model mt tp tmo te env).endpoint_primary) = false :=
    beq_eq_false_iff_ne.2 (mkClient_endpoints_ne api_key base_url model mt tp tmo te env)
  simp [callLLM, classify, errorBranch, hkey, hjP, hjF, hstP, hstF,
    hiP, hiF, hsl, hne]

/-- Closed instance of `c1_both_422_model_error` with concrete
structured 422 bodies at both endpoints. -/
theorem c1_both_422_model_error_witness :
    pyTruthyOpt exampleClient.api_key = true
    ∧ errInfo errBody422 = some (.jstr "unknown_model", .jstr "nope")
    ∧ pySlice300 (.jstr "nope") = some (.jstr "nope")
    ∧ callLLM exampleClient "p" ⟨422, "b", some errBody422⟩
        ⟨422, "b", some errBody422⟩
      = ⟨.failure (.apiError 422 (.jstr "unknown_model")
          (pyStr (.jstr "nope"))),
         [(exampleClient.endpoint_primary, mkPayload exampleClient "p"),
          (exampleClient.endpoint_fallback, mkPayload exampleClient "p")]⟩ :=
  ⟨rfl, rfl, rfl,
    c1_both_422_model_error (some "k") (some "http://x") (some "m") 16 1 5
      (some false) (fun _ => none) "p"
      ⟨422, "b", some errBody422⟩ ⟨422, "b", some errBody422⟩
      errBody422 errBody422 (.jstr "unknown_model", .jstr "nope")
      (.jstr "unknown_model") (.jstr "nope") (.jstr "nope")
      rfl rfl rfl rfl rfl rfl rfl rfl rfl rfl⟩

/-- With a non-JSON body and status 401 or 403, the iteration raises the
line-54 unauthorized error for its URL. -/
theorem classify_nonjson_auth (b : Bool) (url : String) (r : HttpResponse)
    (hj : r.jsonBody = none)
    (hst : r.status_code = 401 ∨ r.status_code = 403) :
    classify b url r = .raiseErr (.unauthorized url (strTake 300 r.text)) := by
  rcases hst with h | h <;> simp [classify, hj, h]

/-- A 401/403 response never advances the loop to the next endpoint,
whatever its body. -/
theorem classify_auth_ne_continue (b : Bool) (url : String)
    (r : HttpResponse)
    (hst : r.status_code = 401 ∨ r.status_code = 403) :
    classify b url r ≠ .continueNext := by
  rcases hj : r.jsonBody with _ | data
  · rcases hst with h | h <;> simp [classify, hj, h]
  · rcases hi : errInfo data with _ | info
    · rcases hst with h | h <;> simp [classify, errorBranch, hj, h, hi]
    · rcases info with ⟨code, msg⟩
      rcases hsl : pySlice300 msg with _ | sl <;>
        rcases hst with h | h <;>
        simp [classify, errorBranch, hj, h, hi, hsl]

/-- Claim C2 is false as stated: a 401 response whose body parses as
JSON skips the `except` handler, enters the line-62 error branch, and
raises the line-69 API error (the spec's `ModelError`), not the line-54
unauthorized error — though still with no additional POST. -/
theorem c2_counterexample :
    (callLLM exampleClient "p" ⟨401, "t", some (.jobj [])⟩
        ⟨200, "t", none⟩).outcome
      = .failure (.apiError 401 .jnull "\x7b\x7d")
    ∧ isUnauthorizedFailure (callLLM exampleClient "p"
        ⟨401, "t", some (.jobj [])⟩ ⟨200, "t", none⟩).outcome = false
    ∧ (callLLM exampleClient "p" ⟨401, "t", some (.jobj [])⟩
        ⟨200, "t", none⟩).posts.length = 1 :=
  ⟨rfl, rfl, rfl⟩

/-- Claim C2 (amended): a 401/403 primary response always terminates the
call after that single POST — the fallback is never attempted — and
when the body is non-JSON the outcome is the line-54 `Unauthorized`
error; when the body parses as JSON the outcome is instead the line-69
API error (or an uncaught exception), since 401/403 is only special in
the non-JSON handler. -/
theorem c2_auth_immediate (c : Client) (prompt : String)
    (rP rF : HttpResponse)
    (hkey : pyTruthyOpt c.api_key = true)
    (hst : rP.status_code = 401 ∨ rP.status_code = 403) :
    (callLLM c prompt rP rF).posts = [(c.endpoint_primary, mkPayload c prompt)]
    ∧ (rP.jsonBody = none →
        (callLLM c prompt rP rF).outcome
          = .failure (.unauthorized c.endpoint_primary (strTake 300 rP.text))) := by
  rcases h1 : classify true c.endpoint_primary rP with v | e | _ | _
  · refine ⟨by simp [callLLM, hkey, h1], fun hn => ?_⟩
    rw [classify_nonjson_auth true c.endpoint_primary rP hn hst] at h1
    exact StepResult.noConfusion h1
  · refine ⟨by simp [callLLM, hkey, h1], fun hn => ?_⟩
    have h2 := classify_nonjson_auth true c.endpoint_primary rP hn hst
    rw [h1] at h2
    injection h2 with he
    simp [callLLM, hkey, h1, he]
  · exact absurd h1 (classify_auth_ne_continue true c.endpoint_primary rP hst)
  · refine ⟨by simp [callLLM, hkey, h1], fun hn => ?_⟩
    rw [classify_nonjson_auth true c.endpoint_primary rP hn hst] at h1
    exact StepResult.noConfusion h1

/-- Closed instance of `c2_auth_immediate`: a non-JSON 401 terminates
with the unauthorized error after one POST. -/
theorem c2_auth_immediate_witness :
    pyTruthyOpt exampleClient.api_key = true
    ∧ (callLLM exampleClient "p" ⟨401, "denied", none⟩
        ⟨200, "", none⟩).posts
      = [(exampleClient.endpoint_primary, mkPayload exampleClient "p")]
    ∧ (callLLM exampleClient "p" ⟨401, "denied", none⟩
        ⟨200, "", none⟩).outcome
      = .failure (.unauthorized exampleClient.endpoint_primary
          (strTake 300 "denied")) := by
  have h := c2_auth_immediate exampleClient "p" ⟨401, "denied", none⟩
    ⟨200, "", none⟩ rfl (Or.inl rfl)
  exact ⟨rfl, h.1, h.2 rfl⟩

/-- Claim C4: a primary response with status < 300, a JSON body with no
error member and a string at the expected content path makes the
call return exactly that string after exactly one POST, to the primary
endpoint; the fallback response is never consulted. -/
theorem c4_primary_success (c : Client) (prompt : String)
    (rP rF : HttpResponse) (data : Json) (content : String)
    (hkey : pyTruthyOpt c.api_key = true)
    (hst : rP.status_code < 300)
    (hj : rP.jsonBody = some data)
    (herr : pyContains "error" data = some false)
    (hcontent : contentPath data = some (.jstr content)) :
    callLLM c prompt rP rF
      = ⟨.success (.jstr content),
         [(c.endpoint_primary, mkPayload c prompt)]⟩ := by
  have hnle : ¬ (300 ≤ rP.status_code) := by omega
  simp [callLLM, classify, hkey, hj, hnle, herr, hcontent]

/-- Closed instance of `c4_primary_success`: the §8 scenario, a 200
response whose body holds the sentence about a wooden chair at the
expected content path. -/
theorem c4_primary_success_witness :
    pyTruthyOpt exampleClient.api_key = true
    ∧ (200 : Nat) < 300
    ∧ callLLM exampleClient "describe a chair"
        ⟨200, "b", some (.jobj [("choices", .jarr [.jobj [("message",
          .jobj [("content", .jstr "A wooden chair.")])]])])⟩
        ⟨200, "", none⟩
      = ⟨.success (.jstr "A wooden chair."),
         [(exampleClient.endpoint_primary,
           mkPayload exampleClient "describe a chair")]⟩ :=
  ⟨rfl, by decide,
    c4_primary_success exampleClient "describe a chair"
      ⟨200, "b", some (.jobj [("choices", .jarr [.jobj [("message",
        .jobj [("content", .jstr "A wooden chair.")])]])])⟩
      ⟨200, "", none⟩
      (.jobj [("choices", .jarr [.jobj [("message",
        .jobj [("content", .jstr "A wooden chair.")])]])])
      "A wooden chair." rfl (by decide) rfl rfl rfl⟩

/-- Claim C5: a primary response whose body fails to parse as JSON with
status 404 (or 405) always leads to exactly one additional POST, to the
fallback URL, whatever the fallback then answers. -/
theorem c5_nonjson_404_fallback (c : Client) (prompt : String)
    (rP rF : HttpResponse)
    (hkey : pyTruthyOpt c.api_key = true)
    (hj : rP.jsonBody = none)
    (hst : rP.status_code = 404 ∨ rP.status_code = 405) :
    (callLLM c prompt rP rF).posts
      = [(c.endpoint_primary, mkPayload c prompt),
         (c.endpoint_fallback, mkPayload c prompt)] := by
  have h1 : classify true c.endpoint_primary rP = .continueNext := by
    rcases hst with h | h <;> simp [classify, hj, h]
  rcases h2 : classify (c.endpoint_fallback == c.endpoint_primary)
      c.endpoint_fallback rF with v | e | _ | _ <;>
    simp [callLLM, hkey, h1, h2]

/-- Closed instance of `c5_nonjson_404_fallback`: an HTML 404 page on
the primary endpoint. -/
theorem c5_nonjson_404_fallback_witness :
    pyTruthyOpt exampleClient.api_key = true
    ∧ ((404 : Nat) = 404 ∨ (404 : Nat) = 405)
    ∧ (callLLM exampleClient "p" ⟨404, "<html>not found</html>", none⟩
        ⟨500, "oops", none⟩).posts
      = [(exampleClient.endpoint_primary, mkPayload exampleClient "p"),
         (exampleClient.endpoint_fallback, mkPayload exampleClient "p")] :=
  ⟨rfl, Or.inl rfl,
    c5_nonjson_404_fallback exampleClient "p"
      ⟨404, "<html>not found</html>", none⟩ ⟨500, "oops", none⟩
      rfl rfl (Or.inl rfl)⟩

/-- Claim C10 is false as stated: a JSON-parsable 404 body that is not
a dict (here the empty list) makes line 63's `data.get` raise
`AttributeError` before the line-67 retry check, so the call dies with
an uncaught exception after one POST instead of advancing to the
fallback. -/
theorem c10_counterexample :
    (callLLM exampleClient "p" ⟨404, "t", some (.jarr [])⟩
        ⟨200, "t", none⟩).outcome = .pyExn
    ∧ (callLLM exampleClient "p" ⟨404, "t", some (.jarr [])⟩
        ⟨200, "t", none⟩).posts.length = 1 :=
  ⟨rfl, rfl⟩

/-- Claim C10 (amended): a JSON 404/422 primary response advances the
machine to the fallback — a second POST to the fallback URL — whenever
lines 63–65 can compute the error info, i.e. the body is a dict whose
error member, if present, is itself a dict; the presence of the error
key is not required.  (Non-dict shapes instead raise an uncaught
`AttributeError`.) -/
theorem c10_json_404_422_retries (c : Client) (prompt : String)
    (rP rF : HttpResponse) (data : Json) (info : Json × Json)
    (hkey : pyTruthyOpt c.api_key = true)
    (hst : rP.status_code = 404 ∨ rP.status_code = 422)
    (hj : rP.jsonBody = some data)
    (hi : errInfo data = some info) :
    (callLLM c prompt rP rF).posts
      = [(c.endpoint_primary, mkPayload c prompt),
         (c.endpoint_fallback, mkPayload c prompt)] := by
  rcases info with ⟨code, msg⟩
  have h1 : classify true c.endpoint_primary rP = .continueNext := by
    rcases hst with h | h <;> simp [classify, errorBranch, hj, h, hi]
  rcases h2 : classify (c.endpoint_fallback == c.endpoint_primary)
      c.endpoint_fallback rF with v | e | _ | _ <;>
    simp [callLLM, hkey, h1, h2]

/-- Closed instance of `c10_json_404_422_retries`: a 404 dict body with
no error key still advances to the fallback. -/
theorem c10_json_404_422_retries_witness :
    pyTruthyOpt exampleClient.api_key = true
    ∧ errInfo (.jobj [("detail", .jstr "nope")])
        = some (.jnull, .jstr (pyStr (.jobj [("detail", .jstr "nope")])))
    ∧ (callLLM exampleClient "p"
        ⟨404, "t", some (.jobj [("detail", .jstr "nope")])⟩
        ⟨500, "x", none⟩).posts
      = [(exampleClient.endpoint_primary, mkPayload exampleClient "p"),
         (exampleClient.endpoint_fallback, mkPayload exampleClient "p")] :=
  ⟨rfl, rfl,
    c10_json_404_422_retries exampleClient "p"
      ⟨404, "t", some (.jobj [("detail", .jstr "nope")])⟩ ⟨500, "x", none⟩
      (.jobj [("detail", .jstr "nope")])
      (.jnull, .jstr (pyStr (.jobj [("detail", .jstr "nope")])))
      rfl (Or.inl rfl) rfl rfl⟩

/-- Every run POSTs to a prefix of `[primary, fallback]`, always with
the one payload built at line 40. -/
theorem callLLM_posts_cases (c : Client) (prompt : String)
    (rP rF : HttpResponse) :
    (callLLM c prompt rP rF).posts = []
    ∨ (callLLM c prompt rP rF).posts
        = [(c.endpoint_primary, mkPayload c prompt)]
    ∨ (callLLM c prompt rP rF).posts
        = [(c.endpoint_primary, mkPayload c prompt),
           (c.endpoint_fallback, mkPayload c prompt)] := by
  by_cases hk : pyTruthyOpt c.api_key = false
  · left
    simp [callLLM, hk]
  · rcases h1 : classify true c.endpoint_primary rP with v | e | _ | _ <;>
      rcases h2 : classify (c.endpoint_fallback == c.endpoint_primary)
        c.endpoint_fallback rF with v2 | e2 | _ | _ <;>
      simp [callLLM, hk, h1, h2]

/-- Claim C7: a constructed client derives exactly the two endpoints —
the base followed by the versioned path (primary) and the base followed
by the plain path (fallback) — and every call POSTs the one
payload built from the prompt — the empty trace, the primary alone, or
the primary followed by the fallback with the identical payload. -/
theorem c7_endpoints_and_payload (api_key base_url model : Option String)
    (mt : Nat) (tp : Rat) (tmo : Nat) (te : Option Bool) (env : Env)
    (prompt : String) (rP rF : HttpResponse) :
    (mkClient api_key base_url model mt tp tmo te env).endpoint_primary
      = (mkClient api_key base_url model mt tp tmo te env).base_url
        ++ "/v1/chat/completions"
    ∧ (mkClient api_key base_url model mt tp tmo te env).endpoint_fallback
      = (mkClient api_key base_url model mt tp tmo te env).base_url
        ++ "/chat/completions"
    ∧ ((callLLM (mkClient api_key base_url model mt tp tmo te env)
          prompt rP rF).posts = []
       ∨ (callLLM (mkClient api_key base_url model mt tp tmo te env)
          prompt rP rF).posts
        = [((mkClient api_key base_url model mt tp tmo te env).endpoint_primary,
            mkPayload (mkClient api_key base_url model mt tp tmo te env) prompt)]
       ∨ (callLLM (mkClient api_key base_url model mt tp tmo te env)
          prompt rP rF).posts
        = [((mkClient api_key base_url model mt tp tmo te env).endpoint_primary,
            mkPayload (mkClient api_key base_url model mt tp tmo te env) prompt),
           ((mkClient api_key base_url model mt tp tmo te env).endpoint_fallback,
            mkPayload (mkClient api_key base_url model mt tp tmo te env) prompt)]) :=
  ⟨rfl, rfl, callLLM_posts_cases _ prompt rP rF⟩

/-- Inversion for the error branch: whatever it raises is the line-69
API error for the branch's status. -/
theorem errorBranch_raise_inv (b : Bool) (status : Nat) (data : Json)
    (e : LLMError) (h : errorBranch b status data = .raiseErr e) :
    ∃ code ex, e = .apiError status code ex := by
  rcases hi : errInfo data with _ | info
  · rw [errorBranch, hi] at h
    exact StepResult.noConfusion h
  · rcases info with ⟨code, msg⟩
    simp only [errorBranch, hi] at h
    by_cases hc : (b && (status == 404 || status == 422)) = true
    · rw [if_pos hc] at h
      exact StepResult.noConfusion h
    · rw [if_neg hc] at h
      rcases hsl : pySlice300 msg with _ | sl <;> rw [hsl] at h
      · exact StepResult.noConfusion h
      · injection h with he
        exact ⟨code, pyStr sl, he.symm⟩

/-- Inversion for one loop iteration: whatever it raises is the
unauthorized error (on a non-JSON 401/403), the non-JSON transport
error, or the API error — each carrying this iteration's URL, status
and excerpt. -/
theorem classify_raise_inv (b : Bool) (url : String) (r : HttpResponse)
    (e : LLMError) (h : classify b url r = .raiseErr e) :
    (e = .unauthorized url (strTake 300 r.text)
      ∧ (r.status_code = 401 ∨ r.status_code = 403))
    ∨ e = .nonJson r.status_code url (strTake 500 r.text)
    ∨ ∃ code ex, e = .apiError r.status_code code ex := by
  rcases hj : r.jsonBody with _ | data
  · rw [classify, hj] at h
    by_cases h1 : (r.status_code == 401 || r.status_code == 403) = true
    · rw [if_pos h1] at h
      injection h with he
      refine Or.inl ⟨he.symm, ?_⟩
      simpa using h1
    · rw [if_neg h1] at h
      by_cases h2 : (r.status_code == 404 || r.status_code == 405) = true
      · rw [if_pos h2] at h
        exact StepResult.noConfusion h
      · rw [if_neg h2] at h
        injection h with he
        exact Or.inr (Or.inl he.symm)
  · simp only [classify, hj] at h
    by_cases h3 : 300 ≤ r.status_code
    · rw [if_pos h3] at h
      exact Or.inr (Or.inr (errorBranch_raise_inv _ _ _ _ h))
    · rw [if_neg h3] at h
      rcases hc : pyContains "error" data with _ | flag
      · rw [hc] at h
        exact StepResult.noConfusion h
      · rcases flag <;> rw [hc] at h
        · rcases hcp : contentPath data with _ | v <;> rw [hcp] at h <;>
            exact StepResult.noConfusion h
        · exact Or.inr (Or.inr (errorBranch_raise_inv _ _ _ _ h))

/-- Claim C8 (amended): every `RuntimeError` outcome carries its
classification tag in the constructor; the unauthorized error carries
the offending URL and a ≤300-character excerpt of that response's raw
body (but no status); the non-JSON error carries URL, status and a
≤500-character excerpt; the API error carries the status and the
server's code and message (but no URL); the config and exhausted errors
carry fixed messages with no URL, status or excerpt. -/
theorem c8_error_payload (c : Client) (prompt : String)
    (rP rF : HttpResponse) (e : LLMError)
    (h : (callLLM c prompt rP rF).outcome = .failure e) :
    errDataOk c rP rF e ∧ excerptLenOk e := by
  by_cases hk : pyTruthyOpt c.api_key = false
  · simp [callLLM, hk] at h
    subst h
    exact ⟨trivial, trivial⟩
  · rcases h1 : classify true c.endpoint_primary rP with v | e1 | _ | _
    · simp [callLLM, hk, h1] at h
    · simp [callLLM, hk, h1] at h
      subst h
      rcases classify_raise_inv true c.endpoint_primary rP e1 h1 with
        ⟨he, hst⟩ | he | ⟨code, ex, he⟩
      · subst he
        exact ⟨Or.inl ⟨rfl, rfl, hst⟩, strTake_length_le 300 rP.text⟩
      · subst he
        exact ⟨Or.inl ⟨rfl, rfl, rfl⟩, strTake_length_le 500 rP.text⟩
      · subst he
        exact ⟨Or.inl rfl, trivial⟩
    · rcases h2 : classify (c.endpoint_fallback == c.endpoint_primary)
          c.endpoint_fallback rF with v | e2 | _ | _
      · simp [callLLM, hk, h1, h2] at h
      · simp [callLLM, hk, h1, h2] at h
        subst h
        rcases classify_raise_inv _ c.endpoint_fallback rF e2 h2 with
          ⟨he, hst⟩ | he | ⟨code, ex, he⟩
        · subst he
          exact ⟨Or.inr ⟨rfl, rfl, hst⟩, strTake_length_le 300 rF.text⟩
        · subst he
          exact ⟨Or.inr ⟨rfl, rfl, rfl⟩, strTake_length_le 500 rF.text⟩
        · subst he
          exact ⟨Or.inr rfl, trivial⟩
      · simp [callLLM, hk, h1, h2] at h
        subst h
        exact ⟨trivial, trivial⟩
      · simp [callLLM, hk, h1, h2] at h
    · simp [callLLM, hk, h1] at h

/-- Claim C8 is false as stated: the line-69 API error — here produced
by a 500 response whose body is an empty dict — interpolates status, code and
message into its text but not the offending URL, so this fatal outcome
does not carry the URL. -/
theorem c8_counterexample :
    (callLLM exampleClient "p" ⟨500, "t", some (.jobj [])⟩
        ⟨200, "t", none⟩).outcome
      = .failure (.apiError 500 .jnull "\x7b\x7d")
    ∧ containsSub (LLMError.message (.apiError 500 .jnull "\x7b\x7d"))
        exampleClient.endpoint_primary = false
    ∧ containsSub (LLMError.message (.apiError 500 .jnull "\x7b\x7d"))
        exampleClient.endpoint_fallback = false :=
  ⟨rfl, by decide, by decide⟩

/-- Closed instance of `c8_error_payload` at a non-JSON 401 run ending
in the unauthorized error. -/
theorem c8_error_payload_witness :
    (callLLM exampleClient "p" ⟨401, "denied", none⟩ ⟨200, "", none⟩).outcome
      = .failure (.unauthorized exampleClient.endpoint_primary
          (strTake 300 "denied"))
    ∧ (errDataOk exampleClient ⟨401, "denied", none⟩ ⟨200, "", none⟩
        (.unauthorized exampleClient.endpoint_primary (strTake 300 "denied"))
      ∧ excerptLenOk (.unauthorized exampleClient.endpoint_primary
          (strTake 300 "denied"))) :=
  ⟨rfl, c8_error_payload exampleClient "p" ⟨401, "denied", none⟩
    ⟨200, "", none⟩
    (.unauthorized exampleClient.endpoint_primary (strTake 300 "denied"))
    rfl⟩
